import Mathlib

/-!
# Verification of the BD18378 LED-driver core

A shallow embedding of the BD18378 SPI LED-driver (`src/lib.rs`,
`src/registers.rs`). Bytes are `Nat` reduced mod 256 where the Rust `u8`
type enforces the range. The SPI transport is modelled as a function from
the index of the transaction issued on the bus (the driver's transaction
count so far) to either `some` two reply bytes (transport success) or
`none` (transport failure). The driver state records the sequence of
(address, value) pairs it has sent, which stands in for the wire traffic
observable by the mock in the repository's tests.
-/

/-- The SPI transport: reply to the n-th transfer issued on the bus,
`none` meaning a transport-level failure of that transfer. -/
abbrev Bus : Type := Nat → Option (Nat × Nat)

/-- `Error` mirrors the `Error` enum of `src/lib.rs`. -/
inductive Error where
  | BusError
  | CommunicationError
  | InitFailed
  | NotInitialized
  | InvalidChannel
deriving DecidableEq, Repr

/-- `WriteRegister` mirrors the enum of `src/registers.rs`. -/
inductive WriteRegister where
  | ChannelCalibration00
  | ChannelCalibration01
  | ChannelCalibration02
  | ChannelCalibration03
  | ChannelCalibration04
  | ChannelCalibration05
  | ChannelCalibration06
  | ChannelCalibration07
  | ChannelCalibration08
  | ChannelCalibration09
  | ChannelCalibration10
  | ChannelCalibration11
  | ChannelEnable00To05
  | ChannelEnable06To11
  | StatusReset
  | SoftwareReset
  | Reserved79
  | Reserved7A
  | Reserved7B
  | ReservedB5
  | ReservedB6
  | ReservedB7
  | ReservedB8
  | ReservedB9
deriving DecidableEq, Repr

/-- The `repr(u8)` discriminants of `WriteRegister` (the `as u8` cast). -/
def WriteRegister.addr : WriteRegister → Nat
  | .ChannelCalibration00 => 0x48
  | .ChannelCalibration01 => 0x49
  | .ChannelCalibration02 => 0x4A
  | .ChannelCalibration03 => 0x4B
  | .ChannelCalibration04 => 0x4C
  | .ChannelCalibration05 => 0x4D
  | .ChannelCalibration06 => 0x4E
  | .ChannelCalibration07 => 0x4F
  | .ChannelCalibration08 => 0x50
  | .ChannelCalibration09 => 0x51
  | .ChannelCalibration10 => 0x52
  | .ChannelCalibration11 => 0x53
  | .ChannelEnable00To05 => 0x56
  | .ChannelEnable06To11 => 0x57
  | .StatusReset => 0x6B
  | .SoftwareReset => 0x6C
  | .Reserved79 => 0x79
  | .Reserved7A => 0x7A
  | .Reserved7B => 0x7B
  | .ReservedB5 => 0xB5
  | .ReservedB6 => 0xB6
  | .ReservedB7 => 0xB7
  | .ReservedB8 => 0xB8
  | .ReservedB9 => 0xB9

/-- `CHANNELS_PER_REGISTER` of `src/lib.rs`. -/
def CHANNELS_PER_REGISTER : Nat := 6

/-- `CHANNELS_PER_IC` of `src/lib.rs`. -/
def CHANNELS_PER_IC : Nat := 12

/-- The `Bd18378` driver state: the `is_initialized` flag and the
`channel_enable: [bool; 12]` array of `src/lib.rs`, plus the trace of
(address, value) pairs sent over the SPI bus so far (the wire history,
in place of the `spi` handle). -/
structure Bd18378 where
  is_initialized : Bool
  channel_enable : List Bool
  trace : List (Nat × Nat)
deriving DecidableEq, Repr

/-- `Bd18378::new`: not initialized, all 12 channels disabled, nothing sent. -/
def Bd18378.new : Bd18378 :=
  { is_initialized := false
    channel_enable := List.replicate CHANNELS_PER_IC false
    trace := [] }

/-- One full-duplex two-byte exchange: record the sent pair, consult the
bus for the reply to this (the `trace.length`-th) transaction. -/
def Bd18378.transfer_write (bus : Bus) (s : Bd18378) (addr value : Nat) :
    Bd18378 × Except Error (Nat × Nat) :=
  let sent : Nat × Nat := (addr % 256, value % 256)
  let s' : Bd18378 := { s with trace := s.trace ++ [sent] }
  match bus s.trace.length with
  | some reply => (s', Except.ok reply)
  | none => (s', Except.error Error.BusError)

/-- `Bd18378::write_register`: send `[register as u8, value]`, return the
two reply bytes, or `BusError` on transport failure. -/
def Bd18378.write_register (bus : Bus) (s : Bd18378)
    (register : WriteRegister) (value : Nat) :
    Bd18378 × Except Error (Nat × Nat) :=
  Bd18378.transfer_write bus s register.addr value

/-- `Bd18378::check_initialized`. -/
def Bd18378.check_initialized (s : Bd18378) : Except Error Unit :=
  if s.is_initialized = false then Except.error Error.NotInitialized
  else Except.ok ()

/-- `Bd18378::reset_status_register`: write `0b00111111` to `StatusReset`,
discarding the reply bytes. -/
def Bd18378.reset_status_register (bus : Bus) (s : Bd18378) :
    Bd18378 × Except Error Unit :=
  match Bd18378.write_register bus s WriteRegister.StatusReset 0b00111111 with
  | (s', Except.ok _) => (s', Except.ok ())
  | (s', Except.error e) => (s', Except.error e)

/-- `Bd18378::get_init_sequence`: the fixed 15-entry table of
(register, value) pairs from the datasheet. -/
def Bd18378.get_init_sequence : List (WriteRegister × Nat) :=
  [ (WriteRegister.SoftwareReset, 0b10100001),
    (WriteRegister.SoftwareReset, 0b10100001),
    (WriteRegister.ReservedB5, 0b10011110),
    (WriteRegister.ReservedB6, 0b00000000),
    (WriteRegister.ReservedB5, 0b10011110),
    (WriteRegister.ReservedB7, 0b00000000),
    (WriteRegister.ReservedB5, 0b10011110),
    (WriteRegister.ReservedB8, 0b00000000),
    (WriteRegister.ReservedB5, 0b10011110),
    (WriteRegister.ReservedB9, 0b00000000),
    (WriteRegister.Reserved79, 0b11010110),
    (WriteRegister.Reserved7A, 0b00000000),
    (WriteRegister.Reserved79, 0b11010110),
    (WriteRegister.Reserved7B, 0b00000000),
    (WriteRegister.SoftwareReset, 0b10100001) ]

/-- The (address, value) bytes put on the wire for one sequence entry. -/
def sentBytes (p : WriteRegister × Nat) : Nat × Nat :=
  (p.1.addr % 256, p.2 % 256)

/-- The loop body of `Bd18378::init`: walk the sequence, writing each
entry; from the second entry on, the reply must equal the previous
entry's sent bytes (`old_data`), else `CommunicationError`. -/
def Bd18378.init_loop (bus : Bus) :
    Bd18378 → Nat × Nat → Bool → List (WriteRegister × Nat) →
    Bd18378 × Except Error Unit
  | s, _, _, [] => (s, Except.ok ())
  | s, old_data, first, (reg, value) :: rest =>
    match Bd18378.write_register bus s reg value with
    | (s', Except.error e) => (s', Except.error e)
    | (s', Except.ok data) =>
      if first = false ∧ data ≠ old_data then
        (s', Except.error Error.CommunicationError)
      else
        Bd18378.init_loop bus s' (sentBytes (reg, value)) false rest

/-- `Bd18378::init`: drive the 15-entry sequence with delayed-echo
validation, then the status-reset write; only then set the flag. -/
def Bd18378.init (bus : Bus) (s : Bd18378) : Bd18378 × Except Error Unit :=
  match Bd18378.init_loop bus s (0x00, 0x00) true Bd18378.get_init_sequence with
  | (s', Except.ok _) =>
    match Bd18378.reset_status_register bus s' with
    | (s'', Except.ok _) => ({ s'' with is_initialized := true }, Except.ok ())
    | (s'', Except.error e) => (s'', Except.error e)
  | (s', Except.error e) => (s', Except.error e)

/-- `Bd18378::enable_channel`: index check, then init check, then set the
in-memory flag. No bus traffic. -/
def Bd18378.enable_channel (s : Bd18378) (ch : Nat) :
    Bd18378 × Except Error Unit :=
  if ch ≥ s.channel_enable.length then (s, Except.error Error.InvalidChannel)
  else
    match Bd18378.check_initialized s with
    | Except.error e => (s, Except.error e)
    | Except.ok _ =>
      ({ s with channel_enable := s.channel_enable.set ch true }, Except.ok ())

/-- `Bd18378::disable_channel`: index check, then init check, then clear
the in-memory flag. No bus traffic. -/
def Bd18378.disable_channel (s : Bd18378) (ch : Nat) :
    Bd18378 × Except Error Unit :=
  if ch ≥ s.channel_enable.length then (s, Except.error Error.InvalidChannel)
  else
    match Bd18378.check_initialized s with
    | Except.error e => (s, Except.error e)
    | Except.ok _ =>
      ({ s with channel_enable := s.channel_enable.set ch false }, Except.ok ())

/-- `Bd18378::compute_channel_group_value`: OR together `1 << (ch - offset)`
for each enabled channel `ch` in `[start, stop)`. -/
def Bd18378.compute_channel_group_value (s : Bd18378)
    (start stop offset : Nat) : Nat :=
  (List.range' start (stop - start)).foldl
    (fun group_value ch =>
      if s.channel_enable.getD ch false then
        group_value ||| (1 <<< (ch - offset))
      else group_value)
    0

/-- `Bd18378::update_all_channels`: init check, then write the 0–5 group
mask to `ChannelEnable00To05` and the 6–11 group mask to
`ChannelEnable06To11`, propagating the first failure. -/
def Bd18378.update_all_channels (bus : Bus) (s : Bd18378) :
    Bd18378 × Except Error Unit :=
  match Bd18378.check_initialized s with
  | Except.error e => (s, Except.error e)
  | Except.ok _ =>
    let first_group_value :=
      Bd18378.compute_channel_group_value s 0 CHANNELS_PER_REGISTER 0
    match Bd18378.write_register bus s WriteRegister.ChannelEnable00To05
        first_group_value with
    | (s', Except.error e) => (s', Except.error e)
    | (s', Except.ok _) =>
      let second_group_value :=
        Bd18378.compute_channel_group_value s' CHANNELS_PER_REGISTER
          CHANNELS_PER_IC CHANNELS_PER_REGISTER
      match Bd18378.write_register bus s' WriteRegister.ChannelEnable06To11
          second_group_value with
      | (s'', Except.error e) => (s'', Except.error e)
      | (s'', Except.ok _) => (s'', Except.ok ())

/-- Modelled from the spec: `set_channel_calibration(ch, value)` is absent
from `src/lib.rs` (only its integration tests exist in the repository).
Per the spec: `ch` in `[0,12)` or `InvalidChannel` (the index check comes
before the initialization check, as the no-init invalid-channel test
asserts), then the controller must be initialized or `NotInitialized`;
then a single transaction writes `value` to the calibration register of
channel `ch` — the calibration registers are contiguous from 0x48 in
channel order — with `BusError` on transport failure and no read-back
validation. -/
def Bd18378.set_channel_calibration (bus : Bus) (s : Bd18378)
    (ch : Nat) (value : Nat) : Bd18378 × Except Error Unit :=
  if ch ≥ CHANNELS_PER_IC then (s, Except.error Error.InvalidChannel)
  else
    match Bd18378.check_initialized s with
    | Except.error e => (s, Except.error e)
    | Except.ok _ =>
      match Bd18378.transfer_write bus s (0x48 + ch) value with
      | (s', Except.ok _) => (s', Except.ok ())
      | (s', Except.error e) => (s', Except.error e)

/-! ## Wire-level constants and success conditions -/

/-- The (address, value) bytes of the 15 sequence writes, in order. -/
def seqSent : List (Nat × Nat) := Bd18378.get_init_sequence.map sentBytes

/-- The sixteen (address, value) pairs the spec lists for `init()`:
the 15 sequence writes followed by the status-reset write. -/
def init_wire_bytes : List (Nat × Nat) :=
  [ (0x6C, 0xA1), (0x6C, 0xA1), (0xB5, 0x9E), (0xB6, 0x00), (0xB5, 0x9E),
    (0xB7, 0x00), (0xB5, 0x9E), (0xB8, 0x00), (0xB5, 0x9E), (0xB9, 0x00),
    (0x79, 0xD6), (0x7A, 0x00), (0x79, 0xD6), (0x7B, 0x00), (0x6C, 0xA1),
    (0x6B, 0x3F) ]

/-- Success condition `init()` actually enforces, for a run whose first
transaction is the `n`-th on the bus: all 16 transfers succeed at the
transport level, and for transactions 2..15 (0-indexed `i` in 1..14) the
reply equals the pair sent by the previous transaction. The status-reset
reply (transaction 16) is not validated. -/
def init_ok_cond (bus : Bus) (n : Nat) : Prop :=
  (∀ i, i < 16 → bus (n + i) ≠ none) ∧
  (∀ i, i < 15 → 1 ≤ i → bus (n + i) = some (init_wire_bytes.getD (i - 1) (0, 0)))

/-- The success condition as the spec sentence words it: the echo check
extended through transaction 16 (the status-reset reply compared against
transaction 15's bytes). Stated to be compared against the code. -/
def initSpecC1cond (bus : Bus) (n : Nat) : Prop :=
  (∀ i, i < 16 → bus (n + i) ≠ none) ∧
  (∀ i, i < 16 → 1 ≤ i → bus (n + i) = some (init_wire_bytes.getD (i - 1) (0, 0)))

/-- A bus answering like the repository's success mock: first reply is
(0,0), every later reply echoes the previous transaction's bytes. -/
def busW : Bus := fun n => some (((0, 0) :: seqSent).getD n (0, 0))

/-- Like `busW` but the reply to the status-reset transaction is (0,0)
rather than an echo of transaction 15. -/
def busC1 : Bus := fun n =>
  if n = 15 then some (0, 0) else some (((0, 0) :: seqSent).getD n (0, 0))

/-- A bus whose every reply is stuck high at 0xFF 0xFF. -/
def busFF : Bus := fun _ => some (0xFF, 0xFF)

/-- A bus that always succeeds at the transport level, replying (0,0). -/
def busOk : Bus := fun _ => some (0, 0)

/-- An initialized controller with all channels disabled and empty trace. -/
def sInit : Bd18378 :=
  { is_initialized := true
    channel_enable := List.replicate CHANNELS_PER_IC false
    trace := [] }

/-- `sInit` after enabling exactly channels 10, 6, 4 and 0. -/
def sEx : Bd18378 :=
  (Bd18378.enable_channel (Bd18378.enable_channel (Bd18378.enable_channel
    (Bd18378.enable_channel sInit 10).1 6).1 4).1 0).1

/-! ## Helper lemmas about the init loop -/

theorem init_loop_is_initialized (bus : Bus) (seq : List (WriteRegister × Nat)) :
    ∀ (s : Bd18378) (old : Nat × Nat) (first : Bool),
    (Bd18378.init_loop bus s old first seq).1.is_initialized = s.is_initialized := by
  induction seq with
  | nil => intro s old first; rfl
  | cons hd tl ih =>
    intro s old first
    obtain ⟨reg, value⟩ := hd
    simp only [Bd18378.init_loop, Bd18378.write_register, Bd18378.transfer_write]
    cases h : bus s.trace.length with
    | none => rfl
    | some reply =>
      by_cases hc : first = false ∧ reply ≠ old
      · simp [hc]
      · simp only [if_neg hc]
        rw [ih]

theorem init_loop_channel_enable (bus : Bus) (seq : List (WriteRegister × Nat)) :
    ∀ (s : Bd18378) (old : Nat × Nat) (first : Bool),
    (Bd18378.init_loop bus s old first seq).1.channel_enable = s.channel_enable := by
  induction seq with
  | nil => intro s old first; rfl
  | cons hd tl ih =>
    intro s old first
    obtain ⟨reg, value⟩ := hd
    simp only [Bd18378.init_loop, Bd18378.write_register, Bd18378.transfer_write]
    cases h : bus s.trace.length with
    | none => rfl
    | some reply =>
      by_cases hc : first = false ∧ reply ≠ old
      · simp [hc]
      · simp only [if_neg hc]
        rw [ih]

theorem init_loop_ok_trace (bus : Bus) (seq : List (WriteRegister × Nat)) :
    ∀ (s : Bd18378) (old : Nat × Nat) (first : Bool),
    (Bd18378.init_loop bus s old first seq).2 = Except.ok () →
    (Bd18378.init_loop bus s old first seq).1.trace =
      s.trace ++ seq.map sentBytes := by
  induction seq with
  | nil => intro s old first _; simp [Bd18378.init_loop]
  | cons hd tl ih =>
    intro s old first hok
    obtain ⟨reg, value⟩ := hd
    simp only [Bd18378.init_loop, Bd18378.write_register,
      Bd18378.transfer_write] at hok ⊢
    cases h : bus s.trace.length with
    | none => rw [h] at hok; dsimp only at hok; cases hok
    | some reply =>
      rw [h] at hok
      dsimp only at hok ⊢
      by_cases hc : first = false ∧ reply ≠ old
      · rw [if_pos hc] at hok; cases hok
      · rw [if_neg hc] at hok ⊢
        rw [ih _ _ _ hok]
        simp [sentBytes]

theorem init_loop_trace_take (bus : Bus) (seq : List (WriteRegister × Nat)) :
    ∀ (s : Bd18378) (old : Nat × Nat) (first : Bool),
    ∃ k, k ≤ seq.length ∧
    (Bd18378.init_loop bus s old first seq).1.trace =
      s.trace ++ (seq.map sentBytes).take k := by
  induction seq with
  | nil =>
    intro s old first
    exact ⟨0, Nat.le_refl 0, by simp [Bd18378.init_loop]⟩
  | cons hd tl ih =>
    intro s old first
    obtain ⟨reg, value⟩ := hd
    simp only [Bd18378.init_loop, Bd18378.write_register, Bd18378.transfer_write]
    cases h : bus s.trace.length with
    | none =>
      refine ⟨1, by simp, ?_⟩
      simp [sentBytes]
    | some reply =>
      dsimp only
      by_cases hc : first = false ∧ reply ≠ old
      · refine ⟨1, by simp, ?_⟩
        rw [if_pos hc]
        simp [sentBytes]
      · rw [if_neg hc]
        obtain ⟨k, hk, htr⟩ := ih
          { s with trace := s.trace ++ [(reg.addr % 256, value % 256)] }
          (sentBytes (reg, value)) false
        refine ⟨k + 1, by simpa using hk, ?_⟩
        rw [htr]
        simp [sentBytes, List.take_cons]

theorem init_loop_false_ok_iff (bus : Bus) (seq : List (WriteRegister × Nat)) :
    ∀ (s : Bd18378) (old : Nat × Nat),
    ((Bd18378.init_loop bus s old false seq).2 = Except.ok () ↔
      ∀ i, i < seq.length →
        bus (s.trace.length + i) =
          some ((old :: seq.map sentBytes).getD i (0, 0))) := by
  induction seq with
  | nil => intro s old; simp [Bd18378.init_loop]
  | cons hd tl ih =>
    intro s old
    obtain ⟨reg, value⟩ := hd
    simp only [Bd18378.init_loop, Bd18378.write_register, Bd18378.transfer_write]
    cases h : bus s.trace.length with
    | none =>
      dsimp only
      constructor
      · intro hok; cases hok
      · intro hall
        have h0 := hall 0 (by simp)
        rw [Nat.add_zero, h] at h0
        cases h0
    | some reply =>
      dsimp only
      by_cases hc : reply = old
      · subst hc
        rw [if_neg (show ¬(True ∧ reply ≠ reply) by simp), ih]
        simp only [List.length_append, List.length_cons, List.length_nil,
          List.length_map, List.map_cons, List.getD_cons_succ,
          List.getD_cons_zero, Nat.add_zero]
        constructor
        · intro hrec i hi
          match i, hi with
          | 0, _ => rw [Nat.add_zero, h]; rfl
          | j + 1, hj =>
            have hj' : j < tl.length := by omega
            have := hrec j hj'
            have harith : s.trace.length + (0 + 1) + j = s.trace.length + (j + 1) := by
              omega
            rw [harith] at this
            simpa using this
        · intro hall i hi
          have := hall (i + 1) (by omega)
          have harith : s.trace.length + (i + 1) = s.trace.length + (0 + 1) + i := by
            omega
          rw [harith] at this
          simpa using this
      · rw [if_pos (show True ∧ reply ≠ old from ⟨trivial, hc⟩)]
        constructor
        · intro hok; cases hok
        · intro hall
          have h0 := hall 0 (by simp)
          rw [Nat.add_zero, h] at h0
          exact absurd (Option.some.inj h0) hc

theorem init_loop_true_step (bus : Bus) (reg : WriteRegister) (value : Nat)
    (tl : List (WriteRegister × Nat)) (s : Bd18378) (old : Nat × Nat) :
    Bd18378.init_loop bus s old true ((reg, value) :: tl) =
      match Bd18378.write_register bus s reg value with
      | (s', Except.error e) => (s', Except.error e)
      | (s', Except.ok _) =>
        Bd18378.init_loop bus s' (sentBytes (reg, value)) false tl := by
  simp only [Bd18378.init_loop]
  cases hw : Bd18378.write_register bus s reg value with
  | mk s' r =>
    cases r with
    | error e => rfl
    | ok data => simp

theorem init_loop_true_ok_iff (bus : Bus) (reg : WriteRegister) (value : Nat)
    (tl : List (WriteRegister × Nat)) (s : Bd18378) (old : Nat × Nat) :
    ((Bd18378.init_loop bus s old true ((reg, value) :: tl)).2 = Except.ok () ↔
      (bus s.trace.length ≠ none ∧
       ∀ i, i < tl.length →
         bus (s.trace.length + 1 + i) =
           some ((sentBytes (reg, value) :: tl.map sentBytes).getD i (0, 0)))) := by
  rw [init_loop_true_step]
  simp only [Bd18378.write_register, Bd18378.transfer_write]
  cases h : bus s.trace.length with
  | none => simp
  | some reply =>
    dsimp only
    rw [init_loop_false_ok_iff]
    simp only [List.length_append, List.length_cons, List.length_nil, ne_eq,
      reduceCtorEq, not_false_eq_true, true_and]

theorem init_loop_comm_error (bus : Bus) (seq : List (WriteRegister × Nat)) :
    ∀ (s : Bd18378) (old : Nat × Nat) (i : Nat), i < seq.length →
    (∀ j, j < i → bus (s.trace.length + j) =
        some ((old :: seq.map sentBytes).getD j (0, 0))) →
    bus (s.trace.length + i) ≠ none →
    bus (s.trace.length + i) ≠
      some ((old :: seq.map sentBytes).getD i (0, 0)) →
    (Bd18378.init_loop bus s old false seq).2 =
      Except.error Error.CommunicationError := by
  induction seq with
  | nil => intro s old i hi; exact absurd hi (by simp)
  | cons hd tl ih =>
    intro s old i hi hpre htr hmis
    obtain ⟨reg, value⟩ := hd
    cases i with
    | zero =>
      rw [Nat.add_zero] at htr hmis
      simp only [Bd18378.init_loop, Bd18378.write_register, Bd18378.transfer_write]
      cases h : bus s.trace.length with
      | none => exact absurd h htr
      | some reply =>
        dsimp only
        have hro : reply ≠ old := by
          intro he
          apply hmis
          rw [h, he]
          rfl
        rw [if_pos (show True ∧ reply ≠ old from ⟨trivial, hro⟩)]
    | succ j =>
      have h0 := hpre 0 (Nat.succ_pos j)
      rw [Nat.add_zero] at h0
      simp only [Bd18378.init_loop, Bd18378.write_register, Bd18378.transfer_write]
      cases h : bus s.trace.length with
      | none => rw [h] at h0; cases h0
      | some reply =>
        dsimp only
        rw [h] at h0
        have hre : reply = old := by simpa using h0
        rw [if_neg (show ¬(True ∧ reply ≠ old) by simp [hre])]
        have hlen : ({ s with trace := s.trace ++ [(reg.addr % 256, value % 256)] } :
            Bd18378).trace.length = s.trace.length + 1 := by simp
        apply ih _ _ j (by simpa using hi)
        · intro m hm
          rw [hlen]
          have hthis := hpre (m + 1) (by omega)
          have harith : s.trace.length + 1 + m = s.trace.length + (m + 1) := by omega
          rw [harith]
          simpa using hthis
        · rw [hlen]
          have harith : s.trace.length + 1 + j = s.trace.length + (j + 1) := by omega
          rw [harith]
          exact htr
        · rw [hlen]
          have harith : s.trace.length + 1 + j = s.trace.length + (j + 1) := by omega
          rw [harith]
          simpa using hmis

theorem init_loop_no_init_failed (bus : Bus) (seq : List (WriteRegister × Nat)) :
    ∀ (s : Bd18378) (old : Nat × Nat) (first : Bool),
    (Bd18378.init_loop bus s old first seq).2 ≠ Except.error Error.InitFailed := by
  induction seq with
  | nil => intro s old first h; simp [Bd18378.init_loop] at h
  | cons hd tl ih =>
    intro s old first
    obtain ⟨reg, value⟩ := hd
    simp only [Bd18378.init_loop, Bd18378.write_register, Bd18378.transfer_write]
    cases h : bus s.trace.length with
    | none => simp
    | some reply =>
      dsimp only
      by_cases hc : first = false ∧ reply ≠ old
      · simp [hc]
      · simp only [if_neg hc]
        exact ih _ _ _

theorem init_loop_bus_ext (b b' : Bus) (seq : List (WriteRegister × Nat)) :
    ∀ (s : Bd18378) (old : Nat × Nat) (first : Bool),
    (∀ m, s.trace.length ≤ m → b m = b' m) →
    Bd18378.init_loop b s old first seq = Bd18378.init_loop b' s old first seq := by
  induction seq with
  | nil => intro s old first _; rfl
  | cons hd tl ih =>
    intro s old first hag
    obtain ⟨reg, value⟩ := hd
    simp only [Bd18378.init_loop, Bd18378.write_register, Bd18378.transfer_write]
    rw [hag s.trace.length (Nat.le_refl _)]
    cases h : b' s.trace.length with
    | none => rfl
    | some reply =>
      dsimp only
      by_cases hc : first = false ∧ reply ≠ old
      · simp [hc]
      · simp only [if_neg hc]
        apply ih
        intro m hm
        apply hag
        simp only [List.length_append, List.length_cons, List.length_nil] at hm
        omega

theorem reset_status_register_spec (bus : Bus) (s : Bd18378) :
    (Bd18378.reset_status_register bus s).1.trace = s.trace ++ [(0x6B, 0x3F)] ∧
    (Bd18378.reset_status_register bus s).1.is_initialized = s.is_initialized ∧
    (Bd18378.reset_status_register bus s).1.channel_enable = s.channel_enable ∧
    ((Bd18378.reset_status_register bus s).2 = Except.ok () ↔
      bus s.trace.length ≠ none) ∧
    ((Bd18378.reset_status_register bus s).2 = Except.error Error.BusError ↔
      bus s.trace.length = none) := by
  simp only [Bd18378.reset_status_register, Bd18378.write_register,
    Bd18378.transfer_write, WriteRegister.addr]
  cases h : bus s.trace.length with
  | none => exact ⟨by norm_num, rfl, rfl, by simp, by simp⟩
  | some reply => exact ⟨by norm_num, rfl, rfl, by simp, by simp⟩

theorem init_loop_full_ok_iff (bus : Bus) (s : Bd18378) :
    ((Bd18378.init_loop bus s (0x00, 0x00) true
        Bd18378.get_init_sequence).2 = Except.ok () ↔
      (bus s.trace.length ≠ none ∧
       ∀ i, i < 14 →
         bus (s.trace.length + 1 + i) = some (seqSent.getD i (0, 0)))) :=
  init_loop_true_ok_iff bus WriteRegister.SoftwareReset 0b10100001
    (Bd18378.get_init_sequence.drop 1) s (0x00, 0x00)

theorem seqSent_getD (j : Nat) (hj : j < 15) :
    seqSent.getD j (0, 0) = init_wire_bytes.getD j (0, 0) := by
  revert j
  decide

theorem seqSent_length : seqSent.length = 15 := by decide

theorem init_ok_iff_raw (bus : Bus) (s : Bd18378) :
    ((Bd18378.init bus s).2 = Except.ok () ↔
      ((Bd18378.init_loop bus s (0x00, 0x00) true
          Bd18378.get_init_sequence).2 = Except.ok () ∧
        bus (s.trace.length + 15) ≠ none)) := by
  unfold Bd18378.init
  rcases hl : Bd18378.init_loop bus s (0x00, 0x00) true Bd18378.get_init_sequence
    with ⟨s', r⟩
  cases r with
  | error e => simp [hl]
  | ok u =>
    have htr := init_loop_ok_trace bus Bd18378.get_init_sequence s (0x00, 0x00) true
      (by rw [hl])
    rw [hl] at htr
    have hlen : s'.trace.length = s.trace.length + 15 := by
      have : s'.trace = s.trace ++ Bd18378.get_init_sequence.map sentBytes := htr
      rw [this]
      simp [Bd18378.get_init_sequence]
    have hres := (reset_status_register_spec bus s').2.2.2.1
    rcases hr : Bd18378.reset_status_register bus s' with ⟨s'', r2⟩
    rw [hr] at hres
    rw [hlen] at hres
    cases r2 with
    | ok v => simp [hl, hr]; exact hres.mp rfl
    | error e =>
      simp [hl, hr]
      by_contra hne
      exact absurd (hres.mpr hne) (by simp)

theorem take_bridge (k : Nat) (hk : k ≤ 15) :
    List.take k seqSent = List.take k init_wire_bytes := by
  revert k
  decide

theorem seqSent_append : seqSent ++ [(0x6B, 0x3F)] = init_wire_bytes := by decide

theorem init_ok_cond_iff (bus : Bus) (n : Nat) :
    (((bus n ≠ none ∧
        ∀ i, i < 14 → bus (n + 1 + i) = some (seqSent.getD i (0, 0))) ∧
      bus (n + 15) ≠ none) ↔ init_ok_cond bus n) := by
  constructor
  · rintro ⟨⟨h0, hmid⟩, h15⟩
    constructor
    · intro i hi
      by_cases hi0 : i = 0
      · subst hi0; rwa [Nat.add_zero]
      · by_cases hi15 : i = 15
        · subst hi15; exact h15
        · have := hmid (i - 1) (by omega)
          have harith : n + 1 + (i - 1) = n + i := by omega
          rw [harith] at this
          rw [this]
          simp
    · intro i hi h1
      have := hmid (i - 1) (by omega)
      have harith : n + 1 + (i - 1) = n + i := by omega
      rw [harith] at this
      rw [this, seqSent_getD (i - 1) (by omega)]
  · rintro ⟨htrans, hecho⟩
    refine ⟨⟨?_, ?_⟩, ?_⟩
    · have := htrans 0 (by omega)
      rwa [Nat.add_zero] at this
    · intro i hi
      have := hecho (i + 1) (by omega) (by omega)
      have harith : n + (i + 1) = n + 1 + i := by omega
      rw [harith] at this
      rw [this, seqSent_getD i (by omega)]
      simp
    · exact htrans 15 (by omega)

theorem init_flag_of_not_ok (bus : Bus) (s : Bd18378)
    (h : (Bd18378.init bus s).2 ≠ Except.ok ()) :
    (Bd18378.init bus s).1.is_initialized = s.is_initialized := by
  have hloopflag := init_loop_is_initialized bus Bd18378.get_init_sequence s
    (0x00, 0x00) true
  unfold Bd18378.init at h ⊢
  rcases hl : Bd18378.init_loop bus s (0x00, 0x00) true Bd18378.get_init_sequence
    with ⟨s', r⟩
  rw [hl] at h hloopflag
  dsimp only at hloopflag
  cases r with
  | error e => exact hloopflag
  | ok u =>
    dsimp only at h ⊢
    have hresflag := (reset_status_register_spec bus s').2.1
    rcases hr : Bd18378.reset_status_register bus s' with ⟨s'', r2⟩
    rw [hr] at h hresflag
    dsimp only at hresflag
    cases r2 with
    | ok v => exact absurd rfl h
    | error e =>
      dsimp only
      rw [hresflag, hloopflag]

theorem init_flag_of_ok (bus : Bus) (s : Bd18378)
    (h : (Bd18378.init bus s).2 = Except.ok ()) :
    (Bd18378.init bus s).1.is_initialized = true := by
  unfold Bd18378.init at h ⊢
  rcases hl : Bd18378.init_loop bus s (0x00, 0x00) true Bd18378.get_init_sequence
    with ⟨s', r⟩
  rw [hl] at h
  cases r with
  | error e => simp at h
  | ok u =>
    dsimp only at h ⊢
    rcases hr : Bd18378.reset_status_register bus s' with ⟨s'', r2⟩
    rw [hr] at h
    cases r2 with
    | ok v => rfl
    | error e => simp at h

theorem init_ok_trace (bus : Bus) (s : Bd18378)
    (h : (Bd18378.init bus s).2 = Except.ok ()) :
    (Bd18378.init bus s).1.trace = s.trace ++ init_wire_bytes := by
  unfold Bd18378.init at h ⊢
  rcases hl : Bd18378.init_loop bus s (0x00, 0x00) true Bd18378.get_init_sequence
    with ⟨s', r⟩
  rw [hl] at h
  cases r with
  | error e => simp at h
  | ok u =>
    dsimp only at h ⊢
    have htr := init_loop_ok_trace bus Bd18378.get_init_sequence s (0x00, 0x00) true
      (by rw [hl])
    rw [hl] at htr
    dsimp only at htr
    have hrtr := (reset_status_register_spec bus s').1
    rcases hr : Bd18378.reset_status_register bus s' with ⟨s'', r2⟩
    rw [hr] at h hrtr
    dsimp only at hrtr
    cases r2 with
    | ok v =>
      dsimp only
      rw [hrtr, htr, List.append_assoc]
      rw [show (Bd18378.get_init_sequence.map sentBytes ++ [(0x6B, 0x3F)] :
        List (Nat × Nat)) = init_wire_bytes from seqSent_append]
    | error e => simp at h

theorem init_trace_take (bus : Bus) (s : Bd18378) :
    ∃ k, k ≤ 16 ∧
      (Bd18378.init bus s).1.trace = s.trace ++ init_wire_bytes.take k := by
  by_cases h : (Bd18378.init bus s).2 = Except.ok ()
  · refine ⟨16, Nat.le_refl 16, ?_⟩
    rw [init_ok_trace bus s h]
    rw [show init_wire_bytes.take 16 = init_wire_bytes from by decide]
  · unfold Bd18378.init at h ⊢
    obtain ⟨k, hk, htr⟩ :=
      init_loop_trace_take bus Bd18378.get_init_sequence s (0x00, 0x00) true
    have hk15 : k ≤ 15 := by
      rw [show Bd18378.get_init_sequence.length = 15 from rfl] at hk
      exact hk
    have hbridge :
        List.take k (Bd18378.get_init_sequence.map sentBytes) =
          List.take k init_wire_bytes := take_bridge k hk15
    rcases hl : Bd18378.init_loop bus s (0x00, 0x00) true Bd18378.get_init_sequence
      with ⟨s', r⟩
    rw [hl] at h htr
    dsimp only at htr
    cases r with
    | error e =>
      refine ⟨k, by omega, ?_⟩
      dsimp only
      rw [htr, hbridge]
    | ok u =>
      dsimp only at h ⊢
      have htr2 := init_loop_ok_trace bus Bd18378.get_init_sequence s (0x00, 0x00)
        true (by rw [hl])
      rw [hl] at htr2
      dsimp only at htr2
      have hrtr := (reset_status_register_spec bus s').1
      rcases hr : Bd18378.reset_status_register bus s' with ⟨s'', r2⟩
      rw [hr] at h hrtr
      dsimp only at hrtr
      cases r2 with
      | ok v => exact absurd rfl h
      | error e =>
        refine ⟨16, Nat.le_refl 16, ?_⟩
        dsimp only
        rw [hrtr, htr2, List.append_assoc]
        rw [show (Bd18378.get_init_sequence.map sentBytes ++ [(0x6B, 0x3F)] :
          List (Nat × Nat)) = init_wire_bytes from seqSent_append]
        rw [show init_wire_bytes.take 16 = init_wire_bytes from by decide]

theorem reset_bus_ext (b b' : Bus) (s : Bd18378)
    (h : b s.trace.length = b' s.trace.length) :
    Bd18378.reset_status_register b s = Bd18378.reset_status_register b' s := by
  simp only [Bd18378.reset_status_register, Bd18378.write_register,
    Bd18378.transfer_write, h]

theorem init_comm_error_aux (bus : Bus) (s : Bd18378) (i : Nat)
    (h1 : 1 ≤ i) (h15 : i < 15)
    (htrans : ∀ j, j ≤ i → bus (s.trace.length + j) ≠ none)
    (hpre : ∀ j, j < i → 1 ≤ j →
      bus (s.trace.length + j) = some (seqSent.getD (j - 1) (0, 0)))
    (hmis : bus (s.trace.length + i) ≠ some (seqSent.getD (i - 1) (0, 0))) :
    (Bd18378.init bus s).2 = Except.error Error.CommunicationError := by
  have hloop : (Bd18378.init_loop bus s (0x00, 0x00) true
      Bd18378.get_init_sequence).2 = Except.error Error.CommunicationError := by
    have hstep : Bd18378.init_loop bus s (0x00, 0x00) true
        Bd18378.get_init_sequence =
        match Bd18378.write_register bus s WriteRegister.SoftwareReset
            0b10100001 with
        | (s', Except.error e) => (s', Except.error e)
        | (s', Except.ok _) =>
          Bd18378.init_loop bus s'
            (sentBytes (WriteRegister.SoftwareReset, 0b10100001)) false
            (Bd18378.get_init_sequence.drop 1) :=
      init_loop_true_step bus WriteRegister.SoftwareReset 0b10100001
        (Bd18378.get_init_sequence.drop 1) s (0x00, 0x00)
    rw [hstep]
    simp only [Bd18378.write_register, Bd18378.transfer_write]
    rcases hb : bus s.trace.length with _ | reply
    · exact absurd hb (by have := htrans 0 (by omega); rwa [Nat.add_zero] at this)
    · dsimp only
      apply init_loop_comm_error bus (Bd18378.get_init_sequence.drop 1) _ _ (i - 1)
      · rw [show (Bd18378.get_init_sequence.drop 1).length = 14 from rfl]
        omega
      · intro j hj
        simp only [List.length_append, List.length_cons, List.length_nil]
        have hthis := hpre (j + 1) (by omega) (by omega)
        have harith : s.trace.length + (j + 1) = s.trace.length + 1 + j := by omega
        rw [harith] at hthis
        have harith2 : s.trace.length + 0 + 1 + j = s.trace.length + 1 + j := by
          omega
        rw [harith2]
        simpa using hthis
      · simp only [List.length_append, List.length_cons, List.length_nil]
        have hthis := htrans i (Nat.le_refl i)
        have harith : s.trace.length + 0 + 1 + (i - 1) = s.trace.length + i := by
          omega
        rw [harith]
        exact hthis
      · simp only [List.length_append, List.length_cons, List.length_nil]
        have harith : s.trace.length + 0 + 1 + (i - 1) = s.trace.length + i := by
          omega
        rw [harith]
        simpa using hmis
  unfold Bd18378.init
  rcases hl : Bd18378.init_loop bus s (0x00, 0x00) true Bd18378.get_init_sequence
    with ⟨s', r⟩
  rw [hl] at hloop
  dsimp only at hloop
  subst hloop
  rfl

theorem init_first_reply_irrelevant (b b' : Bus) (s : Bd18378)
    (hag : ∀ m, m ≠ s.trace.length → b m = b' m)
    (hb : b s.trace.length ≠ none) (hb' : b' s.trace.length ≠ none) :
    Bd18378.init b s = Bd18378.init b' s := by
  have hloopeq : Bd18378.init_loop b s (0x00, 0x00) true
      Bd18378.get_init_sequence =
      Bd18378.init_loop b' s (0x00, 0x00) true Bd18378.get_init_sequence := by
    have hstepb : Bd18378.init_loop b s (0x00, 0x00) true
        Bd18378.get_init_sequence =
        match Bd18378.write_register b s WriteRegister.SoftwareReset
            0b10100001 with
        | (s', Except.error e) => (s', Except.error e)
        | (s', Except.ok _) =>
          Bd18378.init_loop b s'
            (sentBytes (WriteRegister.SoftwareReset, 0b10100001)) false
            (Bd18378.get_init_sequence.drop 1) :=
      init_loop_true_step b WriteRegister.SoftwareReset 0b10100001
        (Bd18378.get_init_sequence.drop 1) s (0x00, 0x00)
    have hstepb' : Bd18378.init_loop b' s (0x00, 0x00) true
        Bd18378.get_init_sequence =
        match Bd18378.write_register b' s WriteRegister.SoftwareReset
            0b10100001 with
        | (s', Except.error e) => (s', Except.error e)
        | (s', Except.ok _) =>
          Bd18378.init_loop b' s'
            (sentBytes (WriteRegister.SoftwareReset, 0b10100001)) false
            (Bd18378.get_init_sequence.drop 1) :=
      init_loop_true_step b' WriteRegister.SoftwareReset 0b10100001
        (Bd18378.get_init_sequence.drop 1) s (0x00, 0x00)
    rw [hstepb, hstepb']
    simp only [Bd18378.write_register, Bd18378.transfer_write]
    rcases hbn : b s.trace.length with _ | rb
    · exact absurd hbn hb
    · rcases hbn' : b' s.trace.length with _ | rb'
      · exact absurd hbn' hb'
      · dsimp only
        apply init_loop_bus_ext
        intro m hm
        simp only [List.length_append, List.length_cons, List.length_nil] at hm
        exact hag m (by omega)
  unfold Bd18378.init
  rw [hloopeq]
  rcases hl : Bd18378.init_loop b' s (0x00, 0x00) true Bd18378.get_init_sequence
    with ⟨s', r⟩
  cases r with
  | error e => rfl
  | ok u =>
    dsimp only
    have htr := init_loop_ok_trace b' Bd18378.get_init_sequence s (0x00, 0x00) true
      (by rw [hl])
    rw [hl] at htr
    dsimp only at htr
    have hlen : s'.trace.length = s.trace.length + 15 := by
      rw [htr]
      simp [Bd18378.get_init_sequence]
    rw [reset_bus_ext b b' s' (hag s'.trace.length (by omega))]

theorem list_getD_set_self : ∀ (l : List Bool) (n : Nat) (a : Bool),
    n < l.length → (l.set n a).getD n false = a := by
  intro l
  induction l with
  | nil => intro n a h; simp at h
  | cons hd tl ih =>
    intro n a h
    cases n with
    | zero => rfl
    | succ m =>
      simp only [List.set, List.getD_cons_succ]
      exact ih m a (by simpa using h)

theorem list_getD_set_ne : ∀ (l : List Bool) (n m : Nat) (a : Bool),
    n ≠ m → (l.set n a).getD m false = l.getD m false := by
  intro l
  induction l with
  | nil => intro n m a _; rfl
  | cons hd tl ih =>
    intro n m a h
    cases n with
    | zero =>
      cases m with
      | zero => exact absurd rfl h
      | succ k => rfl
    | succ j =>
      cases m with
      | zero => rfl
      | succ k =>
        simp only [List.set, List.getD_cons_succ]
        exact ih j k a (by omega)

theorem list_set_getD_self : ∀ (l : List Bool) (n : Nat) (b : Bool),
    l.getD n false = b → l.set n b = l := by
  intro l
  induction l with
  | nil => intro n b _; rfl
  | cons hd tl ih =>
    intro n b hb
    cases n with
    | zero =>
      rw [show (hd :: tl).getD 0 false = hd from rfl] at hb
      rw [show (hd :: tl).set 0 b = b :: tl from rfl, hb]
    | succ m =>
      rw [show (hd :: tl).set (m + 1) b = hd :: tl.set m b from rfl]
      rw [ih m b (by simpa using hb)]

theorem cgv_first_testBit (s : Bd18378) (k : Nat) (hk : k < 6) :
    (Bd18378.compute_channel_group_value s 0 6 0).testBit k =
      s.channel_enable.getD k false := by
  simp only [Bd18378.compute_channel_group_value]
  rw [show (6 - 0) = 6 from rfl, show List.range' 0 6 = [0, 1, 2, 3, 4, 5] from rfl]
  interval_cases k <;>
  · simp only [List.foldl]
    generalize s.channel_enable.getD 0 false = b0
    generalize s.channel_enable.getD 1 false = b1
    generalize s.channel_enable.getD 2 false = b2
    generalize s.channel_enable.getD 3 false = b3
    generalize s.channel_enable.getD 4 false = b4
    generalize s.channel_enable.getD 5 false = b5
    revert b0 b1 b2 b3 b4 b5
    decide

theorem cgv_second_testBit (s : Bd18378) (k : Nat) (hk : k < 6) :
    (Bd18378.compute_channel_group_value s 6 12 6).testBit k =
      s.channel_enable.getD (6 + k) false := by
  simp only [Bd18378.compute_channel_group_value]
  rw [show (12 - 6) = 6 from rfl,
    show List.range' 6 6 = [6, 7, 8, 9, 10, 11] from rfl]
  interval_cases k <;>
  · simp only [List.foldl]
    generalize s.channel_enable.getD 6 false = b0
    generalize s.channel_enable.getD 7 false = b1
    generalize s.channel_enable.getD 8 false = b2
    generalize s.channel_enable.getD 9 false = b3
    generalize s.channel_enable.getD 10 false = b4
    generalize s.channel_enable.getD 11 false = b5
    revert b0 b1 b2 b3 b4 b5
    decide

theorem cgv_first_lt (s : Bd18378) :
    Bd18378.compute_channel_group_value s 0 6 0 < 64 := by
  simp only [Bd18378.compute_channel_group_value]
  rw [show (6 - 0) = 6 from rfl, show List.range' 0 6 = [0, 1, 2, 3, 4, 5] from rfl]
  simp only [List.foldl]
  generalize s.channel_enable.getD 0 false = b0
  generalize s.channel_enable.getD 1 false = b1
  generalize s.channel_enable.getD 2 false = b2
  generalize s.channel_enable.getD 3 false = b3
  generalize s.channel_enable.getD 4 false = b4
  generalize s.channel_enable.getD 5 false = b5
  revert b0 b1 b2 b3 b4 b5
  decide

theorem cgv_second_lt (s : Bd18378) :
    Bd18378.compute_channel_group_value s 6 12 6 < 64 := by
  simp only [Bd18378.compute_channel_group_value]
  rw [show (12 - 6) = 6 from rfl,
    show List.range' 6 6 = [6, 7, 8, 9, 10, 11] from rfl]
  simp only [List.foldl]
  generalize s.channel_enable.getD 6 false = b0
  generalize s.channel_enable.getD 7 false = b1
  generalize s.channel_enable.getD 8 false = b2
  generalize s.channel_enable.getD 9 false = b3
  generalize s.channel_enable.getD 10 false = b4
  generalize s.channel_enable.getD 11 false = b5
  revert b0 b1 b2 b3 b4 b5
  decide

theorem cgv_congr (s t : Bd18378) (a b c : Nat)
    (h : s.channel_enable = t.channel_enable) :
    Bd18378.compute_channel_group_value s a b c =
      Bd18378.compute_channel_group_value t a b c := by
  simp only [Bd18378.compute_channel_group_value, h]

theorem cgv_trace_invariant (s : Bd18378) (tr : List (Nat × Nat)) (a b c : Nat) :
    Bd18378.compute_channel_group_value
      { is_initialized := s.is_initialized, channel_enable := s.channel_enable,
        trace := tr } a b c =
      Bd18378.compute_channel_group_value s a b c := by
  simp only [Bd18378.compute_channel_group_value]

theorem update_all_channels_raw (bus : Bus) (s : Bd18378)
    (hinit : s.is_initialized = true) :
    (bus s.trace.length = none →
      (Bd18378.update_all_channels bus s).2 = Except.error Error.BusError ∧
      (Bd18378.update_all_channels bus s).1.trace =
        s.trace ++ [(0x56, Bd18378.compute_channel_group_value s 0 6 0 % 256)]) ∧
    (∀ r, bus s.trace.length = some r →
      (Bd18378.update_all_channels bus s).1.trace =
        s.trace ++ [(0x56, Bd18378.compute_channel_group_value s 0 6 0 % 256),
                    (0x57, Bd18378.compute_channel_group_value s 6 12 6 % 256)] ∧
      ((Bd18378.update_all_channels bus s).2 = Except.ok () ↔
        bus (s.trace.length + 1) ≠ none) ∧
      ((Bd18378.update_all_channels bus s).2 = Except.error Error.BusError ↔
        bus (s.trace.length + 1) = none)) := by
  simp only [Bd18378.update_all_channels, Bd18378.check_initialized, hinit,
    CHANNELS_PER_REGISTER, CHANNELS_PER_IC, Bd18378.write_register,
    Bd18378.transfer_write, WriteRegister.addr]
  constructor
  · intro hb
    rw [hb]
    norm_num
  · intro r hb
    rw [hb]
    dsimp only
    simp only [cgv_trace_invariant, List.length_append, List.length_cons,
      List.length_nil, Nat.zero_add]
    cases hb2 : bus (s.trace.length + 1) with
    | none => simp; rfl
    | some r2 => simp; rfl

theorem set_channel_calibration_raw (bus : Bus) (s : Bd18378) (ch value : Nat)
    (hch : ch < 12) (hinit : s.is_initialized = true) :
    (Bd18378.set_channel_calibration bus s ch value).1.trace =
      s.trace ++ [((0x48 + ch) % 256, value % 256)] ∧
    ((Bd18378.set_channel_calibration bus s ch value).2 = Except.ok () ↔
      bus s.trace.length ≠ none) ∧
    ((Bd18378.set_channel_calibration bus s ch value).2 =
        Except.error Error.BusError ↔ bus s.trace.length = none) := by
  simp only [Bd18378.set_channel_calibration, Bd18378.check_initialized, hinit,
    CHANNELS_PER_IC, Bd18378.transfer_write]
  rw [if_neg (show ¬ch ≥ 12 by omega)]
  cases hb : bus s.trace.length with
  | none => simp
  | some r => simp

theorem enable_channel_ok (s : Bd18378) (ch : Nat)
    (hch : ch < s.channel_enable.length) (hinit : s.is_initialized = true) :
    Bd18378.enable_channel s ch =
      ({ s with channel_enable := s.channel_enable.set ch true },
        Except.ok ()) := by
  simp only [Bd18378.enable_channel, Bd18378.check_initialized, hinit]
  rw [if_neg (show ¬ch ≥ s.channel_enable.length by omega)]
  simp

theorem disable_channel_ok (s : Bd18378) (ch : Nat)
    (hch : ch < s.channel_enable.length) (hinit : s.is_initialized = true) :
    Bd18378.disable_channel s ch =
      ({ s with channel_enable := s.channel_enable.set ch false },
        Except.ok ()) := by
  simp only [Bd18378.disable_channel, Bd18378.check_initialized, hinit]
  rw [if_neg (show ¬ch ≥ s.channel_enable.length by omega)]
  simp

theorem enable_channel_flag (s : Bd18378) (ch : Nat) :
    (Bd18378.enable_channel s ch).1.is_initialized = s.is_initialized := by
  simp only [Bd18378.enable_channel, Bd18378.check_initialized]
  by_cases h : ch ≥ s.channel_enable.length
  · rw [if_pos h]
  · rw [if_neg h]
    by_cases h2 : s.is_initialized = false
    · simp [h2]
    · simp [h2]

theorem disable_channel_flag (s : Bd18378) (ch : Nat) :
    (Bd18378.disable_channel s ch).1.is_initialized = s.is_initialized := by
  simp only [Bd18378.disable_channel, Bd18378.check_initialized]
  by_cases h : ch ≥ s.channel_enable.length
  · rw [if_pos h]
  · rw [if_neg h]
    by_cases h2 : s.is_initialized = false
    · simp [h2]
    · simp [h2]

theorem update_all_channels_flag (bus : Bus) (s : Bd18378) :
    (Bd18378.update_all_channels bus s).1.is_initialized = s.is_initialized := by
  simp only [Bd18378.update_all_channels, Bd18378.check_initialized,
    Bd18378.write_register, Bd18378.transfer_write]
  by_cases h2 : s.is_initialized = false
  · simp [h2]
  · simp only [h2, if_false]
    cases hb : bus s.trace.length with
    | none => rfl
    | some r =>
      dsimp only
      cases hb2 : bus (s.trace ++
          [((WriteRegister.ChannelEnable00To05).addr % 256,
            Bd18378.compute_channel_group_value s 0 CHANNELS_PER_REGISTER 0 %
              256)]).length with
      | none => rfl
      | some r2 => rfl

theorem set_channel_calibration_flag (bus : Bus) (s : Bd18378) (ch value : Nat) :
    (Bd18378.set_channel_calibration bus s ch value).1.is_initialized =
      s.is_initialized := by
  simp only [Bd18378.set_channel_calibration, Bd18378.check_initialized,
    Bd18378.transfer_write]
  by_cases h : ch ≥ CHANNELS_PER_IC
  · rw [if_pos h]
  · rw [if_neg h]
    by_cases h2 : s.is_initialized = false
    · simp [h2]
    · simp only [h2, if_false]
      cases hb : bus s.trace.length with
      | none => rfl
      | some r => rfl

theorem enable_channel_not_init (s : Bd18378) (ch : Nat)
    (hch : ch < s.channel_enable.length) (hinit : s.is_initialized = false) :
    Bd18378.enable_channel s ch = (s, Except.error Error.NotInitialized) := by
  simp only [Bd18378.enable_channel, Bd18378.check_initialized, hinit]
  rw [if_neg (show ¬ch ≥ s.channel_enable.length by omega)]
  simp

theorem disable_channel_not_init (s : Bd18378) (ch : Nat)
    (hch : ch < s.channel_enable.length) (hinit : s.is_initialized = false) :
    Bd18378.disable_channel s ch = (s, Except.error Error.NotInitialized) := by
  simp only [Bd18378.disable_channel, Bd18378.check_initialized, hinit]
  rw [if_neg (show ¬ch ≥ s.channel_enable.length by omega)]
  simp

theorem update_all_channels_not_init (bus : Bus) (s : Bd18378)
    (hinit : s.is_initialized = false) :
    Bd18378.update_all_channels bus s = (s, Except.error Error.NotInitialized) := by
  simp [Bd18378.update_all_channels, Bd18378.check_initialized, hinit]

theorem set_channel_calibration_not_init (bus : Bus) (s : Bd18378)
    (ch value : Nat) (hch : ch < 12) (hinit : s.is_initialized = false) :
    Bd18378.set_channel_calibration bus s ch value =
      (s, Except.error Error.NotInitialized) := by
  simp only [Bd18378.set_channel_calibration, Bd18378.check_initialized, hinit,
    CHANNELS_PER_IC]
  rw [if_neg (show ¬ch ≥ 12 by omega)]
  simp

theorem enable_channel_invalid (s : Bd18378) (ch : Nat)
    (h : s.channel_enable.length ≤ ch) :
    Bd18378.enable_channel s ch = (s, Except.error Error.InvalidChannel) := by
  simp only [Bd18378.enable_channel]
  rw [if_pos (show ch ≥ s.channel_enable.length from h)]

theorem disable_channel_invalid (s : Bd18378) (ch : Nat)
    (h : s.channel_enable.length ≤ ch) :
    Bd18378.disable_channel s ch = (s, Except.error Error.InvalidChannel) := by
  simp only [Bd18378.disable_channel]
  rw [if_pos (show ch ≥ s.channel_enable.length from h)]

theorem set_channel_calibration_invalid (bus : Bus) (s : Bd18378)
    (ch value : Nat) (h : 12 ≤ ch) :
    Bd18378.set_channel_calibration bus s ch value =
      (s, Except.error Error.InvalidChannel) := by
  simp only [Bd18378.set_channel_calibration, CHANNELS_PER_IC]
  rw [if_pos (show ch ≥ 12 from h)]

theorem reset_no_init_failed (bus : Bus) (s : Bd18378) :
    (Bd18378.reset_status_register bus s).2 ≠ Except.error Error.InitFailed := by
  simp only [Bd18378.reset_status_register, Bd18378.write_register,
    Bd18378.transfer_write]
  cases h : bus s.trace.length with
  | none => simp
  | some r => simp

theorem init_no_init_failed (bus : Bus) (s : Bd18378) :
    (Bd18378.init bus s).2 ≠ Except.error Error.InitFailed := by
  have hloop := init_loop_no_init_failed bus Bd18378.get_init_sequence s
    (0x00, 0x00) true
  unfold Bd18378.init
  rcases hl : Bd18378.init_loop bus s (0x00, 0x00) true Bd18378.get_init_sequence
    with ⟨s', r⟩
  rw [hl] at hloop
  cases r with
  | error e => exact hloop
  | ok u =>
    dsimp only
    have hres := reset_no_init_failed bus s'
    rcases hr : Bd18378.reset_status_register bus s' with ⟨s'', r2⟩
    rw [hr] at hres
    cases r2 with
    | ok v => simp
    | error e => exact hres

theorem enable_channel_no_init_failed (s : Bd18378) (ch : Nat) :
    (Bd18378.enable_channel s ch).2 ≠ Except.error Error.InitFailed := by
  simp only [Bd18378.enable_channel, Bd18378.check_initialized]
  by_cases h : ch ≥ s.channel_enable.length
  · simp [h]
  · rw [if_neg h]
    by_cases h2 : s.is_initialized = false
    · simp [h2]
    · simp [h2]

theorem disable_channel_no_init_failed (s : Bd18378) (ch : Nat) :
    (Bd18378.disable_channel s ch).2 ≠ Except.error Error.InitFailed := by
  simp only [Bd18378.disable_channel, Bd18378.check_initialized]
  by_cases h : ch ≥ s.channel_enable.length
  · simp [h]
  · rw [if_neg h]
    by_cases h2 : s.is_initialized = false
    · simp [h2]
    · simp [h2]

theorem update_all_channels_no_init_failed (bus : Bus) (s : Bd18378) :
    (Bd18378.update_all_channels bus s).2 ≠ Except.error Error.InitFailed := by
  simp only [Bd18378.update_all_channels, Bd18378.check_initialized,
    Bd18378.write_register, Bd18378.transfer_write]
  by_cases h2 : s.is_initialized = false
  · simp [h2]
  · simp only [h2, if_false]
    cases hb : bus s.trace.length with
    | none => simp
    | some r =>
      dsimp only
      cases hb2 : bus (s.trace ++
          [((WriteRegister.ChannelEnable00To05).addr % 256,
            Bd18378.compute_channel_group_value s 0 CHANNELS_PER_REGISTER 0 %
              256)]).length with
      | none => simp
      | some r2 => simp

theorem set_channel_calibration_no_init_failed (bus : Bus) (s : Bd18378)
    (ch value : Nat) :
    (Bd18378.set_channel_calibration bus s ch value).2 ≠
      Except.error Error.InitFailed := by
  simp only [Bd18378.set_channel_calibration, Bd18378.check_initialized,
    Bd18378.transfer_write]
  by_cases h : ch ≥ CHANNELS_PER_IC
  · rw [if_pos h]
    simp
  · rw [if_neg h]
    by_cases h2 : s.is_initialized = false
    · simp [h2]
    · simp only [h2, if_false]
      cases hb : bus s.trace.length with
      | none => simp
      | some r => simp

/-! ## Claim theorems -/

/-- C1 (amended): `init()` returns `Ok` and sets the initialized flag iff
all 16 bus transactions succeed at the transport level and, for every
transaction i from 2 to 15, the two reply bytes of transaction i equal the
(address, value) pair sent in transaction i-1 — the reply of transaction 16
(the status-reset write) is not validated; in every other case `init()`
returns an error and `is_initialized()` remains false. -/
theorem init_success_characterization (bus : Bus) (s : Bd18378)
    (hs : s.is_initialized = false) :
    ((Bd18378.init bus s).2 = Except.ok () ↔ init_ok_cond bus s.trace.length) ∧
    ((Bd18378.init bus s).2 = Except.ok () →
      (Bd18378.init bus s).1.is_initialized = true) ∧
    ((Bd18378.init bus s).2 ≠ Except.ok () →
      (∃ e, (Bd18378.init bus s).2 = Except.error e) ∧
      (Bd18378.init bus s).1.is_initialized = false) := by
  refine ⟨?_, init_flag_of_ok bus s, ?_⟩
  · rw [init_ok_iff_raw, init_loop_full_ok_iff]
    exact init_ok_cond_iff bus s.trace.length
  · intro h
    refine ⟨?_, ?_⟩
    · cases hr : (Bd18378.init bus s).2 with
      | ok u => exact absurd hr h
      | error e => exact ⟨e, rfl⟩
    · rw [init_flag_of_not_ok bus s h, hs]

/-- C1 witness: on the mock-like bus `busW` a fresh controller initializes
successfully and the success condition holds. -/
theorem init_success_characterization_witness :
    (Bd18378.init busW Bd18378.new).1.is_initialized = true ∧
    init_ok_cond busW Bd18378.new.trace.length := by
  have h := init_success_characterization busW Bd18378.new rfl
  exact ⟨h.2.1 rfl, h.1.mp rfl⟩

/-- C1 counterexample: on `busC1` all 16 transfers succeed and replies 2..15
echo correctly, but the status-reset reply (transaction 16) differs from
transaction 15's bytes. `init()` still returns `Ok`, refuting the claim
that the echo check extends through transaction 16. -/
theorem init_success_spec_counterexample :
    (Bd18378.init busC1 Bd18378.new).2 = Except.ok () ∧
    ¬ initSpecC1cond busC1 Bd18378.new.trace.length := by
  constructor
  · rfl
  · unfold initSpecC1cond
    decide

/-- C2: during `init()`, for every write i ≥ 2 of the 15-write sequence the
reply is compared against the (address, value) bytes sent in write i-1 and
any mismatch makes `init()` return `CommunicationError` with
`is_initialized` still false; the reply of the very first write is not
checked at all (two buses that differ only in that reply, both succeeding
at the transport level there, drive `init()` to the identical outcome). -/
theorem init_echo_validation :
    (∀ (bus : Bus) (s : Bd18378) (i : Nat), s.is_initialized = false →
      1 ≤ i → i < 15 →
      (∀ j, j ≤ i → bus (s.trace.length + j) ≠ none) →
      (∀ j, j < i → 1 ≤ j →
        bus (s.trace.length + j) = some (seqSent.getD (j - 1) (0, 0))) →
      bus (s.trace.length + i) ≠ some (seqSent.getD (i - 1) (0, 0)) →
      (Bd18378.init bus s).2 = Except.error Error.CommunicationError ∧
      (Bd18378.init bus s).1.is_initialized = false) ∧
    (∀ (b b' : Bus) (s : Bd18378),
      (∀ m, m ≠ s.trace.length → b m = b' m) →
      b s.trace.length ≠ none → b' s.trace.length ≠ none →
      Bd18378.init b s = Bd18378.init b' s) := by
  refine ⟨?_, init_first_reply_irrelevant⟩
  intro bus s i hs h1 h15 htrans hpre hmis
  have herr := init_comm_error_aux bus s i h1 h15 htrans hpre hmis
  refine ⟨herr, ?_⟩
  rw [init_flag_of_not_ok bus s (by rw [herr]; simp), hs]

/-- C2 witness: the stuck-high bus (every reply 0xFF 0xFF) makes the second
reply mismatch the first write's bytes, so `init()` on a fresh controller
fails with `CommunicationError` and stays uninitialized. -/
theorem init_echo_validation_witness :
    (Bd18378.init busFF Bd18378.new).2 = Except.error Error.CommunicationError ∧
    (Bd18378.init busFF Bd18378.new).1.is_initialized = false :=
  init_echo_validation.1 busFF Bd18378.new 1 rfl (by decide) (by decide)
    (by decide) (by decide) (by decide)

/-- C3 (modelled from the spec; `set_channel_calibration` is absent from
`src/lib.rs`): for every `ch < 12` and value, on an initialized controller
the call issues exactly one transaction writing the value to register
`0x48 + ch`, succeeds iff the transport succeeds, and fails with `BusError`
exactly on transport failure. -/
theorem set_channel_calibration_contract (bus : Bus) (s : Bd18378)
    (ch value : Nat) (hch : ch < 12) (hinit : s.is_initialized = true) :
    (Bd18378.set_channel_calibration bus s ch value).1.trace =
      s.trace ++ [(0x48 + ch, value % 256)] ∧
    ((Bd18378.set_channel_calibration bus s ch value).2 = Except.ok () ↔
      bus s.trace.length ≠ none) ∧
    ((Bd18378.set_channel_calibration bus s ch value).2 =
        Except.error Error.BusError ↔ bus s.trace.length = none) := by
  have h := set_channel_calibration_raw bus s ch value hch hinit
  rw [show (0x48 + ch) % 256 = 0x48 + ch from Nat.mod_eq_of_lt (by omega)] at h
  exact h

/-- C3 witness: `set_channel_calibration 0 0x05` on an initialized
controller writes the single transaction (0x48, 0x05) and succeeds. -/
theorem set_channel_calibration_contract_witness :
    (Bd18378.set_channel_calibration busOk sInit 0 0x05).1.trace =
      [(0x48, 0x05)] ∧
    (Bd18378.set_channel_calibration busOk sInit 0 0x05).2 = Except.ok () := by
  have h := set_channel_calibration_contract busOk sInit 0 0x05 (by decide) rfl
  exact ⟨by rw [h.1]; rfl, h.2.1.mpr (by decide)⟩

/-- C4: the wire bytes sent by `init()` are exactly the sixteen pairs of
`init_wire_bytes` in order: every run sends a prefix of that fixed list
(aborting early only on failure), and a successful run sends precisely all
sixteen, no more, no fewer. -/
theorem init_wire_bytes_exact (bus : Bus) (s : Bd18378) :
    (∃ k, k ≤ 16 ∧
      (Bd18378.init bus s).1.trace = s.trace ++ init_wire_bytes.take k) ∧
    ((Bd18378.init bus s).2 = Except.ok () →
      (Bd18378.init bus s).1.trace = s.trace ++ init_wire_bytes) :=
  ⟨init_trace_take bus s, init_ok_trace bus s⟩

/-- C4 witness: on `busW` a fresh controller's successful `init()` leaves
exactly the sixteen wire pairs in the trace. -/
theorem init_wire_bytes_exact_witness :
    (Bd18378.init busW Bd18378.new).1.trace = init_wire_bytes :=
  (init_wire_bytes_exact busW Bd18378.new).2 rfl

/-- C5: `update_all_channels()` on an initialized controller computes two
bitmasks from `channel_enable` — bit k of the first mask iff channel k is
enabled, bit k of the second iff channel 6+k is enabled — writes the first
to 0x56 then the second to 0x57 in that order, and aborts before the second
write when the first transfer fails. -/
theorem update_all_channels_contract (bus : Bus) (s : Bd18378)
    (hinit : s.is_initialized = true) :
    (∀ k, k < 6 →
      (Bd18378.compute_channel_group_value s 0 6 0).testBit k =
        s.channel_enable.getD k false ∧
      (Bd18378.compute_channel_group_value s 6 12 6).testBit k =
        s.channel_enable.getD (6 + k) false) ∧
    (bus s.trace.length = none →
      (Bd18378.update_all_channels bus s).2 = Except.error Error.BusError ∧
      (Bd18378.update_all_channels bus s).1.trace =
        s.trace ++ [(0x56, Bd18378.compute_channel_group_value s 0 6 0)]) ∧
    (∀ r, bus s.trace.length = some r →
      (Bd18378.update_all_channels bus s).1.trace =
        s.trace ++ [(0x56, Bd18378.compute_channel_group_value s 0 6 0),
                    (0x57, Bd18378.compute_channel_group_value s 6 12 6)] ∧
      ((Bd18378.update_all_channels bus s).2 = Except.ok () ↔
        bus (s.trace.length + 1) ≠ none)) := by
  have hraw := update_all_channels_raw bus s hinit
  have hm1 : Bd18378.compute_channel_group_value s 0 6 0 % 256 =
      Bd18378.compute_channel_group_value s 0 6 0 :=
    Nat.mod_eq_of_lt (lt_trans (cgv_first_lt s) (by omega))
  have hm2 : Bd18378.compute_channel_group_value s 6 12 6 % 256 =
      Bd18378.compute_channel_group_value s 6 12 6 :=
    Nat.mod_eq_of_lt (lt_trans (cgv_second_lt s) (by omega))
  rw [hm1, hm2] at hraw
  exact ⟨fun k hk => ⟨cgv_first_testBit s k hk, cgv_second_testBit s k hk⟩,
    hraw.1, fun r hr => ⟨(hraw.2 r hr).1, (hraw.2 r hr).2.1⟩⟩

/-- C5 witness: after enabling exactly channels 0, 4, 6, 10 on an
initialized controller, `update_all_channels` writes 0x56 ↦ 0b00010001
then 0x57 ↦ 0b00010001 and succeeds. -/
theorem update_all_channels_contract_witness :
    (Bd18378.update_all_channels busOk sEx).1.trace =
      [(0x56, 0b00010001), (0x57, 0b00010001)] ∧
    (Bd18378.update_all_channels busOk sEx).2 = Except.ok () := by
  have h := (update_all_channels_contract busOk sEx rfl).2.2 (0, 0) rfl
  exact ⟨by rw [h.1]; rfl, h.2.mpr (by decide)⟩

/-- C6 (amended): every channel/calibration operation called before a
successful `init()` fails — with `NotInitialized` for every valid channel
index (and unconditionally for `update_all_channels`), while an out-of-range
index fails with `InvalidChannel` instead, the index check coming first. -/
theorem pre_init_gating (bus : Bus) (s : Bd18378) (ch value : Nat)
    (hs : s.is_initialized = false) (hlen : s.channel_enable.length = 12) :
    (ch < 12 →
      (Bd18378.enable_channel s ch).2 = Except.error Error.NotInitialized ∧
      (Bd18378.disable_channel s ch).2 = Except.error Error.NotInitialized ∧
      (Bd18378.set_channel_calibration bus s ch value).2 =
        Except.error Error.NotInitialized) ∧
    (Bd18378.update_all_channels bus s).2 = Except.error Error.NotInitialized ∧
    (12 ≤ ch →
      (Bd18378.enable_channel s ch).2 = Except.error Error.InvalidChannel ∧
      (Bd18378.disable_channel s ch).2 = Except.error Error.InvalidChannel ∧
      (Bd18378.set_channel_calibration bus s ch value).2 =
        Except.error Error.InvalidChannel) := by
  refine ⟨?_, ?_, ?_⟩
  · intro hch
    rw [enable_channel_not_init s ch (by omega) hs,
      disable_channel_not_init s ch (by omega) hs,
      set_channel_calibration_not_init bus s ch value hch hs]
    exact ⟨rfl, rfl, rfl⟩
  · rw [update_all_channels_not_init bus s hs]
  · intro hch
    rw [enable_channel_invalid s ch (by omega),
      disable_channel_invalid s ch (by omega),
      set_channel_calibration_invalid bus s ch value hch]
    exact ⟨rfl, rfl, rfl⟩

/-- C6 witness: on a fresh controller, `enable_channel 0` and
`update_all_channels` fail with `NotInitialized`. -/
theorem pre_init_gating_witness :
    (Bd18378.enable_channel Bd18378.new 0).2 = Except.error Error.NotInitialized ∧
    (Bd18378.update_all_channels busOk Bd18378.new).2 =
      Except.error Error.NotInitialized := by
  have h := pre_init_gating busOk Bd18378.new 0 0 rfl rfl
  exact ⟨(h.1 (by decide)).1, h.2.1⟩

/-- C6 counterexample: on a freshly constructed (hence uninitialized)
controller, `enable_channel 12` fails with `InvalidChannel`, not
`NotInitialized` — the claim that pre-init calls fail with `NotInitialized`
regardless of index validity is false. -/
theorem pre_init_gating_cex :
    Bd18378.new.is_initialized = false ∧
    (Bd18378.enable_channel Bd18378.new 12).2 = Except.error Error.InvalidChannel ∧
    (Bd18378.enable_channel Bd18378.new 12).2 ≠
      Except.error Error.NotInitialized := by
  refine ⟨rfl, rfl, ?_⟩
  intro h
  exact Error.noConfusion (Except.error.inj h)

/-- C7: for every controller state, initialized or not, `enable_channel`,
`disable_channel` and `set_channel_calibration` with an index ≥ 12 fail
with `InvalidChannel`; the index check precedes the initialization check,
so `InvalidChannel` wins when both preconditions are violated. -/
theorem invalid_channel_precedence (bus : Bus) (s : Bd18378) (ch value : Nat)
    (hlen : s.channel_enable.length = 12) (hch : 12 ≤ ch) :
    (Bd18378.enable_channel s ch).2 = Except.error Error.InvalidChannel ∧
    (Bd18378.disable_channel s ch).2 = Except.error Error.InvalidChannel ∧
    (Bd18378.set_channel_calibration bus s ch value).2 =
      Except.error Error.InvalidChannel := by
  rw [enable_channel_invalid s ch (by omega),
    disable_channel_invalid s ch (by omega),
    set_channel_calibration_invalid bus s ch value hch]
  exact ⟨rfl, rfl, rfl⟩

/-- C7 witness: on a fresh, uninitialized controller (both preconditions
violated), channel 12 yields `InvalidChannel`. -/
theorem invalid_channel_precedence_witness :
    (Bd18378.enable_channel Bd18378.new 12).2 =
      Except.error Error.InvalidChannel ∧
    (Bd18378.set_channel_calibration busOk Bd18378.new 12 0).2 =
      Except.error Error.InvalidChannel := by
  have h := invalid_channel_precedence busOk Bd18378.new 12 0 rfl (by decide)
  exact ⟨h.1, h.2.2⟩

/-- C8: successful `enable_channel`/`disable_channel` mutate only the single
entry `channel_enable[ch]` — the flag, the wire trace and every other
channel entry are untouched, and no bus transaction is issued — and both
are idempotent: toggling a channel already in the target state succeeds and
leaves the state identical. -/
theorem channel_toggle_frame (s : Bd18378) (ch : Nat)
    (hch : ch < s.channel_enable.length) (hinit : s.is_initialized = true) :
    ((Bd18378.enable_channel s ch).2 = Except.ok () ∧
     (Bd18378.enable_channel s ch).1.is_initialized = s.is_initialized ∧
     (Bd18378.enable_channel s ch).1.trace = s.trace ∧
     (Bd18378.enable_channel s ch).1.channel_enable.getD ch false = true ∧
     (∀ j, j ≠ ch →
       (Bd18378.enable_channel s ch).1.channel_enable.getD j false =
         s.channel_enable.getD j false) ∧
     (s.channel_enable.getD ch false = true →
       (Bd18378.enable_channel s ch).1 = s)) ∧
    ((Bd18378.disable_channel s ch).2 = Except.ok () ∧
     (Bd18378.disable_channel s ch).1.is_initialized = s.is_initialized ∧
     (Bd18378.disable_channel s ch).1.trace = s.trace ∧
     (Bd18378.disable_channel s ch).1.channel_enable.getD ch false = false ∧
     (∀ j, j ≠ ch →
       (Bd18378.disable_channel s ch).1.channel_enable.getD j false =
         s.channel_enable.getD j false) ∧
     (s.channel_enable.getD ch false = false →
       (Bd18378.disable_channel s ch).1 = s)) := by
  rw [enable_channel_ok s ch hch hinit, disable_channel_ok s ch hch hinit]
  refine ⟨⟨rfl, rfl, rfl, list_getD_set_self _ _ _ hch, ?_, ?_⟩,
          rfl, rfl, rfl, list_getD_set_self _ _ _ hch, ?_, ?_⟩
  · intro j hj
    exact list_getD_set_ne _ _ _ _ (fun he => hj he.symm)
  · intro htrue
    rw [list_set_getD_self s.channel_enable ch true htrue]
  · intro j hj
    exact list_getD_set_ne _ _ _ _ (fun he => hj he.symm)
  · intro hfalse
    rw [list_set_getD_self s.channel_enable ch false hfalse]

/-- C8 witness: on an initialized controller, enabling channel 0 succeeds
without bus traffic and disabling the already-disabled channel 0 leaves the
state identical. -/
theorem channel_toggle_frame_witness :
    (Bd18378.enable_channel sInit 0).2 = Except.ok () ∧
    (Bd18378.enable_channel sInit 0).1.trace = sInit.trace ∧
    (Bd18378.disable_channel sInit 0).1 = sInit := by
  have h := channel_toggle_frame sInit 0 (by decide) rfl
  exact ⟨h.1.1, h.1.2.2.1, h.2.2.2.2.2.2 (by decide)⟩

/-- C9: the controller is a two-state machine: a fresh controller is
uninitialized with all 12 channels disabled; no channel or calibration
operation changes the flag; and `init()` sets the flag (from false) exactly
when it returns `Ok`, while an already-set flag is never cleared. -/
theorem controller_state_machine (bus : Bus) (s : Bd18378) (ch value : Nat) :
    (Bd18378.new.is_initialized = false ∧
     ∀ k, k < 12 → Bd18378.new.channel_enable.getD k false = false) ∧
    (Bd18378.enable_channel s ch).1.is_initialized = s.is_initialized ∧
    (Bd18378.disable_channel s ch).1.is_initialized = s.is_initialized ∧
    (Bd18378.update_all_channels bus s).1.is_initialized = s.is_initialized ∧
    (Bd18378.set_channel_calibration bus s ch value).1.is_initialized =
      s.is_initialized ∧
    (s.is_initialized = false →
      ((Bd18378.init bus s).1.is_initialized = true ↔
        (Bd18378.init bus s).2 = Except.ok ())) ∧
    (s.is_initialized = true →
      (Bd18378.init bus s).1.is_initialized = true) := by
  refine ⟨⟨rfl, by decide⟩, enable_channel_flag s ch, disable_channel_flag s ch,
    update_all_channels_flag bus s, set_channel_calibration_flag bus s ch value,
    ?_, ?_⟩
  · intro hs
    constructor
    · intro hflag
      by_contra hne
      rw [init_flag_of_not_ok bus s hne, hs] at hflag
      exact absurd hflag (by decide)
    · exact init_flag_of_ok bus s
  · intro hs
    by_cases hok : (Bd18378.init bus s).2 = Except.ok ()
    · exact init_flag_of_ok bus s hok
    · rw [init_flag_of_not_ok bus s hok, hs]

/-- C9 witness: a fresh controller initialized over `busW` ends with the
flag set exactly because `init()` returned `Ok`. -/
theorem controller_state_machine_witness :
    (Bd18378.init busW Bd18378.new).1.is_initialized = true :=
  ((controller_state_machine busW Bd18378.new 0 0).2.2.2.2.2.1 rfl).mpr rfl

/-- C10: no public operation ever returns `Error.InitFailed`: for every
state, bus behavior, channel index and value, each operation's result
differs from `InitFailed`, so callers can only observe `BusError`,
`CommunicationError`, `NotInitialized` or `InvalidChannel`. -/
theorem no_init_failed_error (bus : Bus) (s : Bd18378) (ch value : Nat) :
    (Bd18378.init bus s).2 ≠ Except.error Error.InitFailed ∧
    (Bd18378.enable_channel s ch).2 ≠ Except.error Error.InitFailed ∧
    (Bd18378.disable_channel s ch).2 ≠ Except.error Error.InitFailed ∧
    (Bd18378.update_all_channels bus s).2 ≠ Except.error Error.InitFailed ∧
    (Bd18378.set_channel_calibration bus s ch value).2 ≠
      Except.error Error.InitFailed :=
  ⟨init_no_init_failed bus s, enable_channel_no_init_failed s ch,
   disable_channel_no_init_failed s ch, update_all_channels_no_init_failed bus s,
   set_channel_calibration_no_init_failed bus s ch value⟩

/-- C10 witness: concretely, `init` on the always-failing transport does
not return `InitFailed`. -/
theorem no_init_failed_error_witness :
    (Bd18378.init (fun _ => none) Bd18378.new).2 ≠
      Except.error Error.InitFailed :=
  (no_init_failed_error (fun _ => none) Bd18378.new 0 0).1
